import Mathlib

/-!
Verification of the resilient URL-shortener serving layer.

This file shallowly embeds the serving-layer components of the repository
(circuit breaker, per-IP token bucket, cache service wrappers, cache-aside
read path, resilient write path, and the admission-control middleware
chain) as executable Lean definitions, and proves or refutes the spec's
claims about them.  Times are modelled as integer milliseconds, token
counts as rationals (the JS code uses IEEE doubles for token arithmetic;
the algorithms are stated over exact arithmetic), and every fallible
operation returns an explicit sum/option value.
-/

set_option maxRecDepth 4000

/-! ### Circuit breaker (cacheService.js, class CircuitBreaker)

The breaker guards every Redis operation.  State is CLOSED, OPEN or
HALF_OPEN; `execute` consults the clock and the outcome of the wrapped
operation (modelled as a boolean: does the operation succeed?). -/

inductive BState
  | CLOSED
  | OPEN
  | HALF_OPEN
  deriving DecidableEq, Repr

structure CircuitBreaker where
  failureThreshold : Nat
  recoveryTimeout : Int
  failureCount : Nat
  lastFailureTime : Option Int
  state : BState
  successCount : Nat
  minSuccessCount : Nat
  deriving DecidableEq, Repr

/-- The constructor defaults: threshold 10, recovery timeout 60000 ms,
three successes required to close. -/
def CircuitBreaker.new : CircuitBreaker :=
  { failureThreshold := 10
    recoveryTimeout := 60000
    failureCount := 0
    lastFailureTime := none
    state := .CLOSED
    successCount := 0
    minSuccessCount := 3 }

/-- Mirrors `onSuccess`: reset failureCount; in HALF_OPEN count successes and
close once `minSuccessCount` is reached, otherwise force CLOSED. -/
def CircuitBreaker.onSuccess (cb : CircuitBreaker) : CircuitBreaker :=
  let cb1 := { cb with failureCount := 0 }
  if cb1.state = .HALF_OPEN then
    let cb2 := { cb1 with successCount := cb1.successCount + 1 }
    if cb2.successCount ≥ cb2.minSuccessCount then { cb2 with state := .CLOSED } else cb2
  else
    { cb1 with state := .CLOSED }

/-- Mirrors `onFailure`: increment failureCount, record the failure time, and
open the breaker only when `failureCount` has reached `failureThreshold`. -/
def CircuitBreaker.onFailure (cb : CircuitBreaker) (now : Int) : CircuitBreaker :=
  let cb1 := { cb with failureCount := cb.failureCount + 1, lastFailureTime := some now }
  if cb1.failureCount ≥ cb1.failureThreshold then { cb1 with state := .OPEN } else cb1

inductive ExecOutcome
  | ok
  | opError
  | circuitOpenError
  deriving DecidableEq, Repr

/-- Mirrors `execute`: in OPEN, pass only once the recovery timeout has elapsed
(transitioning to HALF_OPEN with successCount reset), otherwise fail fast;
then run the operation and apply onSuccess/onFailure.  A null
`lastFailureTime` coerces to 0 in the JS subtraction, hence `getD 0`. -/
def CircuitBreaker.execute (cb : CircuitBreaker) (now : Int) (opSucceeds : Bool) :
    ExecOutcome × CircuitBreaker :=
  let gate : Option CircuitBreaker :=
    if cb.state = .OPEN then
      if now - (cb.lastFailureTime.getD 0) > cb.recoveryTimeout then
        some { cb with state := .HALF_OPEN, successCount := 0 }
      else
        none
    else
      some cb
  match gate with
  | none => (.circuitOpenError, cb)
  | some cb1 =>
      if opSucceeds then (.ok, cb1.onSuccess) else (.opError, cb1.onFailure now)

/-- Fold a list of timed call outcomes through the breaker. -/
def CircuitBreaker.runTrace (cb : CircuitBreaker) : List (Int × Bool) → CircuitBreaker
  | [] => cb
  | (t, r) :: rest => ((cb.execute t r).2).runTrace rest

/-- A reachable breaker state: 10 consecutive failures at t = 0 open the
breaker; at t = 70000 the recovery timeout (60000 ms) has elapsed, so the
probe is let through and succeeds, leaving the breaker HALF_OPEN with
failureCount reset to 0 and successCount 1. -/
def cbAfterProbeSuccess : CircuitBreaker :=
  CircuitBreaker.new.runTrace (List.replicate 10 ((0 : Int), false) ++ [(70000, true)])

/-! ### Per-IP token bucket (cacheService.js, urlCacheService.checkRateLimit)

The cached bucket state is read from Redis; a read error makes the whole
check fail open.  Token arithmetic is over the rationals. -/

structure TokenBucket where
  tokens : ℚ
  ts : Int
  deriving DecidableEq, Repr

structure RateLimitReply where
  allowed : Bool
  tokens : ℚ
  capacity : ℚ
  remaining : ℚ
  resetTime : Option Int
  deriving DecidableEq, Repr

/-- The refill computation of checkRateLimit: elapsed seconds since the last
refill (clamped at 0) times the sustained rate, added to the stored tokens
and capped at `sustainedRps + burstCapacity`. -/
def refillAmount (b : TokenBucket) (now : Int) (sustainedRps burstCapacity : ℚ) : ℚ :=
  let elapsedSec : ℚ := max 0 (((now - b.ts : Int) : ℚ) / 1000)
  min (sustainedRps + burstCapacity) (b.tokens + elapsedSec * sustainedRps)

/-- Mirrors `checkRateLimit`.  Input: the cache read outcome for the bucket
key (`Except.error` = Redis error, `none` = no bucket stored yet), the
clock, and the two rate parameters.  Output: the reply object and the
bucket state persisted back to the cache (`none` on the fail-open error
path, where nothing is written). -/
def checkRateLimit (cached : Except Unit (Option TokenBucket)) (now : Int)
    (sustainedRps burstCapacity : ℚ) : RateLimitReply × Option TokenBucket :=
  match cached with
  | .error _ =>
      ({ allowed := true
         tokens := sustainedRps
         capacity := sustainedRps + burstCapacity
         remaining := sustainedRps
         resetTime := none }, none)
  | .ok st =>
      let state := st.getD { tokens := sustainedRps + burstCapacity, ts := now }
      let tokens0 := refillAmount state now sustainedRps burstCapacity
      let allowed := tokens0 ≥ 1
      let tokens1 := if tokens0 ≥ 1 then tokens0 - 1 else tokens0
      let resetSeconds : Int :=
        Int.ceil ((sustainedRps + burstCapacity - tokens1) / max 1 sustainedRps)
      ({ allowed := allowed
         tokens := tokens1
         capacity := sustainedRps + burstCapacity
         remaining := (Int.floor tokens1 : Int)
         resetTime := some (now + resetSeconds * 1000) }, some { tokens := tokens1, ts := now })

/-! ### Redis cache wrappers (redis.config.js, cacheService)

Every wrapper first consults the module-level `redisAvailable` flag and
then runs the underlying Redis command, whose outcome is modelled as an
`Except`.  Each returns an inert default when Redis is unavailable or the
command fails. -/

def cachePing (redisAvailable : Bool) (r : Except Unit String) : Option String :=
  if !redisAvailable then none
  else match r with
    | .ok s => some s
    | .error _ => none

def cacheGet {α : Type} (redisAvailable : Bool) (r : Except Unit (Option α)) : Option α :=
  if !redisAvailable then none
  else match r with
    | .ok v => v
    | .error _ => none

def cacheSet (redisAvailable : Bool) (r : Except Unit Unit) : Bool :=
  if !redisAvailable then false
  else match r with
    | .ok _ => true
    | .error _ => false

def cacheDel (redisAvailable : Bool) (r : Except Unit Unit) : Bool :=
  if !redisAvailable then false
  else match r with
    | .ok _ => true
    | .error _ => false

def cacheIncr (redisAvailable : Bool) (r : Except Unit Int) : Int :=
  if !redisAvailable then 0
  else match r with
    | .ok n => n
    | .error _ => 0

def cacheMget {α : Type} (redisAvailable : Bool) (r : Except Unit (List (Option α))) :
    List (Option α) :=
  if !redisAvailable then []
  else match r with
    | .ok vs => vs
    | .error _ => []

/-- The `exists` wrapper returns the Redis integer reply on success and the
JS literal `false` on the unavailable/error paths; the two shapes are kept
apart by this sum type. -/
inductive ExistsReply
  | count (n : Nat)
  | fls
  deriving DecidableEq, Repr

def cacheExists (redisAvailable : Bool) (r : Except Unit Nat) : ExistsReply :=
  if !redisAvailable then .fls
  else match r with
    | .ok n => .count n
    | .error _ => .fls

/-! ### Resilient write path (shorturlService.js, createShortUrlWithoutUser)

The store's behaviour is an oracle mapping the attempt index to the
outcome of `saveShortUrl` raced against the 2500 ms quick-timeout:
`ok` (saved within the race), `alreadyExists` (duplicate-key error), or
`failed` (race timeout / any other non-collision store error).  The code
generator is an oracle mapping the attempt index to the generated id. -/

inductive SaveResult
  | ok
  | alreadyExists
  | failed
  deriving DecidableEq, Repr

def maxCollisions : Nat := 5

structure UrlData where
  full_url : String
  short_url : String
  clicks : Nat
  deriving DecidableEq, Repr

/-- A write into the fast cache: key, stored document and TTL in seconds. -/
structure CacheWrite where
  key : String
  data : UrlData
  ttlSeconds : Nat
  deriving DecidableEq, Repr

/-- The detached background-persistence task scheduled by the degrade branch:
initial delay 100 ms, at most 3 retries, invisible to the caller. -/
structure BackgroundJob where
  code : String
  url : String
  initialDelayMs : Nat
  maxRetries : Nat
  deriving DecidableEq, Repr

inductive CreateOutcome
  | created (code : String)
  | degraded (code : String) (cacheWrite : CacheWrite) (job : BackgroundJob)
  | customConflict
  | customFailed
  | notGenerated
  | exhausted
  deriving DecidableEq, Repr

/-- The graceful-degrade branch: cache the mapping under `url:<code>` with a
600 s TTL, schedule the bounded background persistence job, and return the
generated code to the caller. -/
def degradeOutcome (code url : String) : CreateOutcome :=
  .degraded code
    { key := "url:" ++ code
      data := { full_url := url, short_url := code, clicks := 0 }
      ttlSeconds := 600 }
    { code := code, url := url, initialDelayMs := 100, maxRetries := 3 }

/-- The generated-code retry loop of createShortUrlWithoutUser
(`for attempt = 0; attempt <= maxCollisions; attempt++`).  The fuel is
`maxCollisions + 1` loop iterations; falling off the loop yields the
"Failed to generate unique short URL after maximum attempts" outcome.
A collision retries (with backoff, not modelled as it does not affect the
result) only while `attempt < maxCollisions`; a collision on the last
attempt and every non-collision failure take the degrade branch. -/
def createAttemptLoop (store : Nat → SaveResult) (gen : Nat → String) (url : String) :
    Nat → Nat → CreateOutcome
  | _, 0 => .exhausted
  | attempt, fuel + 1 =>
      let code := gen attempt
      if code = "" then .notGenerated
      else
        match store attempt with
        | .ok => .created code
        | .alreadyExists =>
            if attempt < maxCollisions then createAttemptLoop store gen url (attempt + 1) fuel
            else degradeOutcome code url
        | .failed => degradeOutcome code url

/-- Mirrors createShortUrlWithoutUser.  With a custom id the single save
attempt either succeeds, reports the conflict, or propagates the error;
with no custom id the generated-code loop runs. -/
def createShortUrlWithoutUser (store : Nat → SaveResult) (gen : Nat → String)
    (url : String) (customShortId : Option String) : CreateOutcome :=
  match customShortId with
  | some c =>
      (match store 0 with
        | .ok => .created c
        | .alreadyExists => .customConflict
        | .failed => .customFailed)
  | none => createAttemptLoop store gen url 0 (maxCollisions + 1)

/-- A store that reports a duplicate key on every attempt. -/
def allCollide : Nat → SaveResult := fun _ => .alreadyExists

/-- A concrete injective code generator. -/
def genSeq : Nat → String := fun n => "c" ++ toString n

/-! ### Cache-aside read path (cacheService.js, urlCacheService.getShortUrl)

State visible to the read path: the fast cache (mapping entries keyed by
`url:<code>`, plus the analytics records and daily click counters written
by incrementClicks) and the persistent store (list of mappings, unique by
short code).  Redis SET semantics are modelled by consing onto an
association list whose lookup takes the first match.  The three booleans
are the oracle for the fallible dependencies: does the breaker-wrapped
cache call succeed, does the raced DB query succeed, does the fallback DB
query succeed. -/

def lookupAssoc {α : Type} (l : List (String × α)) (k : String) : Option α :=
  (l.find? (fun p => p.1 == k)).map (fun p => p.2)

def setAssoc {α : Type} (l : List (String × α)) (k : String) (v : α) : List (String × α) :=
  (k, v) :: l

/-- Mirrors CACHE_KEYS.SHORT_URL. -/
def SHORT_URL_KEY (code : String) : String := "url:" ++ code

/-- Mirrors CACHE_KEYS.DAILY_CLICKS. -/
def DAILY_CLICKS_KEY (code date : String) : String := "clicks:" ++ code ++ ":" ++ date

structure AnalyticsRecord where
  totalClicks : Nat
  dailyToday : Nat
  deriving DecidableEq, Repr

structure ReadState where
  cache : List (String × UrlData)
  analytics : List (String × AnalyticsRecord)
  dailyCounter : List (String × Nat)
  db : List UrlData
  deriving DecidableEq, Repr

/-- Mirrors dao/shortUrl.js getShortUrl: findOneAndUpdate on the short code
with an atomic `$inc` of clicks, returning the updated document. -/
def dbFindAndIncrement : List UrlData → String → Option UrlData × List UrlData
  | [], _ => (none, [])
  | d :: rest, code =>
      if d.short_url == code then
        let d2 := { d with clicks := d.clicks + 1 }
        (some d2, d2 :: rest)
      else
        let r := dbFindAndIncrement rest code
        (r.1, d :: r.2)

/-- Clicks recorded in the persistent store for a given code (0 if absent). -/
def dbClicks (db : List UrlData) (code : String) : Nat :=
  ((db.find? (fun d => d.short_url == code)).map UrlData.clicks).getD 0

/-- Mirrors urlCacheService.incrementClicks (the fire-and-forget analytics
update on a cache hit): increment the daily Redis counter and rewrite the
analytics record with totalClicks and today's count bumped by one.  Its
own failures are swallowed; this models the run in which it completes. -/
def incrementClicks (s : ReadState) (code date : String) : ReadState :=
  let daily := (lookupAssoc s.dailyCounter (DAILY_CLICKS_KEY code date)).getD 0
  let a := (lookupAssoc s.analytics code).getD { totalClicks := 0, dailyToday := 0 }
  { s with
    dailyCounter := setAssoc s.dailyCounter (DAILY_CLICKS_KEY code date) (daily + 1)
    analytics := setAssoc s.analytics code
      { totalClicks := a.totalClicks + 1, dailyToday := a.dailyToday + 1 } }

/-- Mirrors urlCacheService.getShortUrl.  Cache hit: return the cached
document and fire incrementClicks.  Cache miss: race the DB query; on a
hit repopulate the cache and return the updated document.  Any thrown
error (breaker open, cache timeout/error, DB race timeout) lands in the
catch block, which retries the DB once more (the fallback) and returns
null if that also fails — the function never rethrows. -/
def urlCacheGetShortUrl (s : ReadState) (code date : String)
    (cacheOk dbOk fallbackOk : Bool) : Option UrlData × ReadState :=
  if cacheOk then
    match lookupAssoc s.cache (SHORT_URL_KEY code) with
    | some d => (some d, incrementClicks s code date)
    | none =>
        if dbOk then
          let r := dbFindAndIncrement s.db code
          match r.1 with
          | some d2 => (some d2, { s with db := r.2, cache := setAssoc s.cache (SHORT_URL_KEY code) d2 })
          | none => (none, { s with db := r.2 })
        else
          if fallbackOk then
            let r := dbFindAndIncrement s.db code
            (r.1, { s with db := r.2 })
          else (none, s)
  else
    if fallbackOk then
      let r := dbFindAndIncrement s.db code
      (r.1, { s with db := r.2 })
    else (none, s)

/-- Applying a write-path CacheWrite to the read-path state (the
cacheService.set performed by the degrade branch). -/
def applyCacheWrite (cw : CacheWrite) (s : ReadState) : ReadState :=
  { s with cache := setAssoc s.cache cw.key cw.data }

/-! ### Admission control middleware (index.js)

The four app-level gates, modelled in the order they are registered with
`app.use`: the per-IP rate limiter (registered first, at the top of the
file, with max 150 and burstCapacity 300), then the global rate window,
then the connection ceiling, then the bounded-concurrency queue. -/

def MAX_CONNECTIONS : Nat := 5000
def GLOBAL_RATE_LIMIT : Nat := 180
def GLOBAL_WINDOW_MS : Int := 1000
def MAX_QUEUE_SIZE : Nat := 5000
def MAX_CONCURRENT_REQUESTS : Nat := 1000

/-- Connection-ceiling middleware state.  activeConnections is an integer,
not a natural: nothing in the code keeps it nonnegative. -/
structure ConnState where
  activeConnections : Int
  connectionRejections : Nat
  deriving DecidableEq, Repr

inductive ConnVerdict
  | passed
  | serverBusy
  deriving DecidableEq, Repr

/-- Mirrors the connection middleware body: increment the counter, attach a
`finish` listener and a `close` listener (each decrementing, neither ever
removed — see onFinishListener/onCloseListener), then reject with 503 if
the counter exceeds MAX_CONNECTIONS.  The listeners stay attached on the
rejection path too. -/
def connectionMiddleware (s : ConnState) : ConnState × ConnVerdict :=
  let s1 := { s with activeConnections := s.activeConnections + 1 }
  if s1.activeConnections > (MAX_CONNECTIONS : Int) then
    ({ s1 with connectionRejections := s1.connectionRejections + 1 }, .serverBusy)
  else
    (s1, .passed)

/-- The anonymous listener attached with res.on applied to finish. -/
def onFinishListener (s : ConnState) : ConnState :=
  { s with activeConnections := s.activeConnections - 1 }

/-- The anonymous listener attached with res.on applied to close. -/
def onCloseListener (s : ConnState) : ConnState :=
  { s with activeConnections := s.activeConnections - 1 }

/-- How a response terminates.  On Node's ServerResponse a normal completion
emits `finish` and then `close`; an abort before completion emits only
`close`.  (The queue middleware in the same file guards against the double
fire by removing both listeners in its onDone handler; the connection
middleware does not.) -/
inductive Termination
  | finishThenClose
  | closeOnly
  deriving DecidableEq, Repr

/-- Fires the still-attached listeners for a terminating response. -/
def terminateResponse : Termination → ConnState → ConnState
  | .finishThenClose, s => onCloseListener (onFinishListener s)
  | .closeOnly, s => onCloseListener s

def connInit : ConnState := { activeConnections := 0, connectionRejections := 0 }

/-- Global rate middleware: reset the window when GLOBAL_WINDOW_MS has
elapsed, reject once the counter reached GLOBAL_RATE_LIMIT, otherwise
count the request and pass.  Returns the new (count, windowStart) and
whether the request passed. -/
def globalRateMiddleware (count : Nat) (windowStart : Int) (now : Int) :
    (Nat × Int) × Bool :=
  let cw := if now - windowStart ≥ GLOBAL_WINDOW_MS then ((0 : Nat), now) else (count, windowStart)
  if cw.1 ≥ GLOBAL_RATE_LIMIT then (cw, false)
  else ((cw.1 + 1, cw.2), true)

/-- Queue middleware state: requests being processed, the queue of waiting
requests (front of the list = front of the queue, identified by path),
and the rejection counter. -/
structure QueueState where
  processingRequests : Nat
  requestQueue : List String
  queueRejections : Nat
  deriving DecidableEq, Repr

inductive QueueVerdict
  | admitted
  | enqueued
  | overloaded (queueSize : Nat)
  deriving DecidableEq, Repr

/-- Mirrors isHealthCheck: health and metrics paths get queue priority. -/
def isHealthCheck (path : String) : Bool :=
  path == "/health" || path == "/metrics"

/-- Mirrors processNextQueuedRequest: no-op on an empty queue or while at the
concurrency limit; otherwise shift the front request and start it. -/
def processNextQueuedRequest (s : QueueState) : QueueState × Option String :=
  match s.requestQueue with
  | [] => (s, none)
  | q :: rest =>
      if s.processingRequests ≥ MAX_CONCURRENT_REQUESTS then (s, none)
      else ({ s with requestQueue := rest, processingRequests := s.processingRequests + 1 }, some q)

/-- Mirrors the queueing middleware: at the concurrency limit, reject with
503 (carrying the current queue length) when the queue is full, otherwise
enqueue — health checks at the front via unshift, everything else at the
back via push — and poke processNextQueuedRequest; below the limit, admit
directly. -/
def queueMiddleware (s : QueueState) (path : String) : QueueState × QueueVerdict :=
  if s.processingRequests ≥ MAX_CONCURRENT_REQUESTS then
    if s.requestQueue.length ≥ MAX_QUEUE_SIZE then
      ({ s with queueRejections := s.queueRejections + 1 }, .overloaded s.requestQueue.length)
    else
      let s2 :=
        if isHealthCheck path then { s with requestQueue := path :: s.requestQueue }
        else { s with requestQueue := s.requestQueue ++ [path] }
      ((processNextQueuedRequest s2).1, .enqueued)
  else
    ({ s with processingRequests := s.processingRequests + 1 }, .admitted)

/-- The onDone handler of an admitted request: decrement processingRequests
and hand capacity to the next queued request. -/
def requestCompleted (s : QueueState) : QueueState × Option String :=
  processNextQueuedRequest { s with processingRequests := s.processingRequests - 1 }

/-! ### The composed admission pipeline (index.js registration order) -/

structure AppState where
  globalRequestCount : Nat
  globalWindowStart : Int
  conn : ConnState
  queue : QueueState
  deriving DecidableEq, Repr

inductive Verdict
  | tooManyFromIp
  | globalLimited
  | serverBusy
  | overloaded (depth : Nat)
  | enqueued
  | reached
  deriving DecidableEq, Repr

/-- The rateLimiter middleware as configured in index.js: checkRateLimit
with sustainedRps 150 and burstCapacity 300; returns the allow decision
and the bucket written back to the cache. -/
def rateLimiterMiddleware (cached : Except Unit (Option TokenBucket)) (now : Int) :
    Bool × Option TokenBucket :=
  let out := checkRateLimit cached now 150 300
  (out.1.allowed, out.2)

/-- One request through the admission chain in app.use registration order:
per-IP token bucket (line 64) → global rate ceiling (line 79) →
connection ceiling (line 102) → concurrency/queue gate (line 153).  The
third component of the result is the token-bucket state persisted by the
rate limiter (some means the bucket check ran its cache round-trip and
write-back). -/
def pipeline (s : AppState) (cachedBucket : Except Unit (Option TokenBucket))
    (now : Int) (path : String) : AppState × Verdict × Option TokenBucket :=
  let rl := rateLimiterMiddleware cachedBucket now
  if !rl.1 then (s, .tooManyFromIp, rl.2)
  else
    let g := globalRateMiddleware s.globalRequestCount s.globalWindowStart now
    let s1 := { s with globalRequestCount := g.1.1, globalWindowStart := g.1.2 }
    if !g.2 then (s1, .globalLimited, rl.2)
    else
      let c := connectionMiddleware s1.conn
      let s2 := { s1 with conn := c.1 }
      if c.2 = .serverBusy then (s2, .serverBusy, rl.2)
      else
        let q := queueMiddleware s2.queue path
        let s3 := { s2 with queue := q.1 }
        match q.2 with
        | .admitted => (s3, .reached, rl.2)
        | .enqueued => (s3, .enqueued, rl.2)
        | .overloaded d => (s3, .overloaded d, rl.2)

/-! ### Concrete states used by the counterexamples and witnesses -/

def queueIdle : QueueState :=
  { processingRequests := 0, requestQueue := [], queueRejections := 0 }

/-- An app state whose global window is exhausted (180 requests already
counted in the current window). -/
def globalExhaustedState : AppState :=
  { globalRequestCount := 180, globalWindowStart := 0, conn := connInit, queue := queueIdle }

/-- Queue at the concurrency limit with a completely full queue. -/
def queueFull : QueueState :=
  { processingRequests := 1000, requestQueue := List.replicate 5000 "/x", queueRejections := 0 }

/-- Queue at the concurrency limit with one waiting request. -/
def queueBusyOne : QueueState :=
  { processingRequests := 1000, requestQueue := ["/a"], queueRejections := 0 }

/-- Queue at the concurrency limit with two waiting requests. -/
def queueBusyTwo : QueueState :=
  { processingRequests := 1000, requestQueue := ["/a", "/b"], queueRejections := 0 }

/-- A sample stored mapping with zero clicks. -/
def sampleData : UrlData :=
  { full_url := "https://example.com", short_url := "abcd1234", clicks := 0 }

/-- A read state in which the sample mapping is in cache and in the store. -/
def hitState : ReadState :=
  { cache := [(SHORT_URL_KEY "abcd1234", sampleData)]
    analytics := []
    dailyCounter := []
    db := [sampleData] }

/-- The empty read state. -/
def emptyReadState : ReadState :=
  { cache := [], analytics := [], dailyCounter := [], db := [] }

/-- A nearly drained token bucket (under one token left). -/
def drainedBucket : TokenBucket := { tokens := 0, ts := 0 }

/-- A store whose insert never resolves within the race timeout. -/
def constFailStore : Nat → SaveResult := fun _ => .failed

/-- A constant code generator producing a fixed non-empty id. -/
def constGen : Nat → String := fun _ => "gencode1"

/-! ### Theorems -/

/-- Helper: processNextQueuedRequest is a no-op while at the concurrency
limit, whatever the queue contents. -/
theorem processNext_at_capacity (s : QueueState)
    (h : s.processingRequests ≥ MAX_CONCURRENT_REQUESTS) :
    processNextQueuedRequest s = (s, none) := by
  obtain ⟨p, q, r⟩ := s
  cases q with
  | nil => rfl
  | cons a t => simp [processNextQueuedRequest, h]

/-- C1: the spec claims activeConnections stays nonnegative, returns to 0
when all requests finish, and is decremented exactly once per admitted
request whichever terminal event fires.  The middleware attaches two
permanent decrement listeners (finish and close) and never removes them;
on Node a normally completed response emits finish and then close, so a
single admitted request drives the counter from 0 to 1 and then to -1.
Only the abort path (close alone) returns the counter to 0.  The queue
middleware in the same file removes its listeners in onDone precisely to
avoid this double fire, so the connection middleware is a slip. -/
theorem C1_activeConnections_double_decrement :
    (connectionMiddleware connInit).2 = .passed ∧
    (terminateResponse .finishThenClose (connectionMiddleware connInit).1).activeConnections = -1 ∧
    (terminateResponse .closeOnly (connectionMiddleware connInit).1).activeConnections = 0 := by
  decide

/-- C2 counterexample: the claim says any single failure in HALF_OPEN
immediately reopens the breaker.  Reachable refutation: 10 failures open
the breaker, the probe after the recovery timeout succeeds (HALF_OPEN,
failureCount reset to 0), and then a failure leaves the breaker in
HALF_OPEN, because onFailure only opens once failureCount reaches the
threshold of 10 again. -/
theorem C2_counterexample_halfOpen_failure_stays :
    cbAfterProbeSuccess.state = .HALF_OPEN ∧
    (cbAfterProbeSuccess.execute 70001 false).1 = .opError ∧
    (cbAfterProbeSuccess.execute 70001 false).2.state = .HALF_OPEN := by
  decide

/-- C2 amended: a failure of the wrapped operation while the breaker is
HALF_OPEN always records the failure time (resetting the recovery timer)
and increments failureCount, but transitions to OPEN exactly when the
incremented failureCount reaches failureThreshold; otherwise the breaker
stays HALF_OPEN.  (The first probe failure after OPEN → HALF_OPEN does
reopen, since failureCount is carried over and already at the threshold;
a failure after a HALF_OPEN success does not, since the success reset
failureCount to 0.) -/
theorem C2_amended_halfOpen_failure (cb : CircuitBreaker) (now : Int)
    (h : cb.state = .HALF_OPEN) :
    (cb.execute now false).2.lastFailureTime = some now ∧
    (cb.execute now false).2.failureCount = cb.failureCount + 1 ∧
    ((cb.execute now false).2.state = .OPEN ↔ cb.failureCount + 1 ≥ cb.failureThreshold) ∧
    (cb.failureCount + 1 < cb.failureThreshold → (cb.execute now false).2.state = .HALF_OPEN) := by
  have hne : ¬ cb.state = BState.OPEN := by rw [h]; intro hc; exact BState.noConfusion hc
  by_cases hth : cb.failureCount + 1 ≥ cb.failureThreshold <;>
    simp [CircuitBreaker.execute, CircuitBreaker.onFailure, hne, hth, h]

/-- Witness for the amended C2 theorem at the reachable HALF_OPEN state. -/
theorem C2_amended_halfOpen_failure_witness :
    cbAfterProbeSuccess.state = .HALF_OPEN ∧
    (cbAfterProbeSuccess.execute 70001 false).2.failureCount
      = cbAfterProbeSuccess.failureCount + 1 ∧
    (cbAfterProbeSuccess.execute 70001 false).2.state = .HALF_OPEN := by
  have hst : cbAfterProbeSuccess.state = .HALF_OPEN := by decide
  have hmain := C2_amended_halfOpen_failure cbAfterProbeSuccess 70001 hst
  exact ⟨hst, hmain.2.1, hmain.2.2.2 (by decide)⟩

/-- C3: the spec claims that when the store reports "already exists" on
every generated-code attempt up to the bound, creation fails with an
exhaustion error.  In the code a collision on the final attempt
(attempt = maxCollisions) fails the `attempt < maxCollisions` retry test
and falls into the graceful-degrade branch, which returns the colliding
code (and caches it over the existing mapping); the exhaustion throw
after the loop is unreachable.  Evaluated at a store that always reports
a collision: the call returns the 6th generated code via the degrade
path instead of the exhaustion error. -/
theorem C3_collision_exhaustion_unreachable :
    createShortUrlWithoutUser allCollide genSeq "https://example.com" none
      = degradeOutcome "c5" "https://example.com" ∧
    createShortUrlWithoutUser allCollide genSeq "https://example.com" none ≠ .exhausted := by
  decide

/-- C4 counterexample: the claim says the per-IP token bucket runs last and
never runs for a request rejected by the connection ceiling, global rate
ceiling or queue gate.  In index.js the rate limiter is registered first
(before all three).  Concrete refutation: with the global window already
exhausted, a request is rejected by the global rate ceiling, yet the
token-bucket check has already run — it consumed a token and persisted
the drained bucket (450 → 449) back to the cache. -/
theorem C4_counterexample_bucket_runs_before_global :
    (pipeline globalExhaustedState (.ok none) 0 "/a").2.1 = .globalLimited ∧
    (pipeline globalExhaustedState (.ok none) 0 "/a").2.2
      = some { tokens := 449, ts := 0 } := by
  have hcrl : checkRateLimit (.ok none) 0 150 300
      = ({ allowed := true, tokens := 449, capacity := 450, remaining := 449,
           resetTime := some 1000 }, some { tokens := 449, ts := 0 }) := by
    simp [checkRateLimit, refillAmount]
    norm_num
    rw [Int.ceil_eq_iff]
    norm_num
  constructor <;>
    simp [pipeline, rateLimiterMiddleware, hcrl, globalRateMiddleware, globalExhaustedState,
      GLOBAL_WINDOW_MS, GLOBAL_RATE_LIMIT]

/-- C4 amended: the per-client token bucket is applied first, not last: it
runs for every inbound request, and when it denies, the request is
rejected with the per-IP 429 before the global rate ceiling, connection
ceiling or queue gate run — their state is left untouched, while the
bucket state computed by checkRateLimit is still persisted. -/
theorem C4_amended_bucket_first (s : AppState) (cached : Except Unit (Option TokenBucket))
    (now : Int) (path : String)
    (h : (checkRateLimit cached now 150 300).1.allowed = false) :
    pipeline s cached now path
      = (s, .tooManyFromIp, (checkRateLimit cached now 150 300).2) := by
  simp [pipeline, rateLimiterMiddleware, h]

/-- Witness for the amended C4 theorem: a drained bucket denies the request
and the pipeline stops at the rate limiter. -/
theorem C4_amended_bucket_first_witness :
    (checkRateLimit (.ok (some drainedBucket)) 0 150 300).1.allowed = false ∧
    pipeline globalExhaustedState (.ok (some drainedBucket)) 0 "/a"
      = (globalExhaustedState, .tooManyFromIp, some { tokens := 0, ts := 0 }) := by
  have hcrl : checkRateLimit (.ok (some drainedBucket)) 0 150 300
      = ({ allowed := false, tokens := 0, capacity := 450, remaining := 0,
           resetTime := some 3000 }, some { tokens := 0, ts := 0 }) := by
    simp [checkRateLimit, refillAmount, drainedBucket]
    norm_num
  have h : (checkRateLimit (.ok (some drainedBucket)) 0 150 300).1.allowed = false := by
    rw [hcrl]
  refine ⟨h, ?_⟩
  rw [C4_amended_bucket_first globalExhaustedState (.ok (some drainedBucket)) 0 "/a" h, hcrl]

/-- C10: each cacheService wrapper is a total function (its Lean embedding
returns a plain value, mirroring the catch-all in every wrapper) and
returns its inert default both when the redisAvailable flag is down and
when the underlying Redis command fails: null for ping/get, false for
set/del/exists, 0 for incr, the empty list for mget. -/
theorem C10_cacheService_inert_defaults (α : Type) :
    (∀ r, cachePing false r = none) ∧ cachePing true (.error ()) = none ∧
    (∀ r : Except Unit (Option α), cacheGet false r = none) ∧
    cacheGet true (.error () : Except Unit (Option α)) = none ∧
    (∀ r, cacheSet false r = false) ∧ cacheSet true (.error ()) = false ∧
    (∀ r, cacheDel false r = false) ∧ cacheDel true (.error ()) = false ∧
    (∀ r, cacheIncr false r = 0) ∧ cacheIncr true (.error ()) = 0 ∧
    (∀ r : Except Unit (List (Option α)), cacheMget false r = []) ∧
    cacheMget true (.error () : Except Unit (List (Option α))) = [] ∧
    (∀ r, cacheExists false r = .fls) ∧ cacheExists true (.error ()) = .fls :=
  ⟨fun _ => rfl, rfl, fun _ => rfl, rfl, fun _ => rfl, rfl, fun _ => rfl, rfl,
   fun _ => rfl, rfl, fun _ => rfl, rfl, fun _ => rfl, rfl⟩

/-- Helper: a key just written with setAssoc is the one lookupAssoc finds
(Redis SET followed by GET on the same key). -/
theorem lookupAssoc_set {α : Type} (l : List (String × α)) (k : String) (v : α) :
    lookupAssoc (setAssoc l k v) k = some v := by
  simp [lookupAssoc, setAssoc, List.find?]

/-- Helper: when the store lookup finds a mapping, the returned document
carries exactly the old click count plus one. -/
theorem dbFindAndIncrement_found_clicks (db : List UrlData) (code : String) :
    ∀ d, (dbFindAndIncrement db code).1 = some d → d.clicks = dbClicks db code + 1 := by
  induction db with
  | nil => intro d h; simp [dbFindAndIncrement] at h
  | cons a rest ih =>
    intro d h
    by_cases ha : a.short_url == code
    · simp [dbFindAndIncrement, ha] at h
      simp [dbClicks, List.find?_cons_of_pos, ha, ← h]
    · simp [dbFindAndIncrement, ha] at h
      have h2 := ih d h
      simpa [dbClicks, List.find?_cons_of_neg, ha] using h2

/-- Helper: the store update never decreases any mapping's click count. -/
theorem dbFindAndIncrement_clicks_mono (db : List UrlData) (code c : String) :
    dbClicks db c ≤ dbClicks (dbFindAndIncrement db code).2 c := by
  induction db with
  | nil => simp [dbFindAndIncrement]
  | cons a rest ih =>
    by_cases ha : a.short_url == code
    · by_cases hc : a.short_url == c
      · simp [dbFindAndIncrement, ha, dbClicks, List.find?_cons_of_pos, hc]
      · simp [dbFindAndIncrement, ha, dbClicks, List.find?_cons_of_neg, hc]
    · by_cases hc : a.short_url == c
      · simp [dbFindAndIncrement, ha, dbClicks, List.find?_cons_of_pos, hc]
      · simpa [dbFindAndIncrement, ha, dbClicks, List.find?_cons_of_neg, hc] using ih

/-- Helper: the cache-hit branch of the read path returns the cached
document and fires only the analytics increment. -/
theorem readPath_cacheHit (s : ReadState) (code date : String) (dbOk fallbackOk : Bool)
    (d : UrlData) (h : lookupAssoc s.cache (SHORT_URL_KEY code) = some d) :
    urlCacheGetShortUrl s code date true dbOk fallbackOk
      = (some d, incrementClicks s code date) := by
  simp [urlCacheGetShortUrl, h]

/-- Helper: on a cache miss with the DB race succeeding, the read path
returns exactly what the incrementing DB query returns. -/
theorem readPath_miss_fst (s : ReadState) (code date : String) (fallbackOk : Bool)
    (h : lookupAssoc s.cache (SHORT_URL_KEY code) = none) :
    (urlCacheGetShortUrl s code date true true fallbackOk).1
      = (dbFindAndIncrement s.db code).1 := by
  simp only [urlCacheGetShortUrl, h, if_true]
  cases hr : (dbFindAndIncrement s.db code).1 <;> simp [hr]

/-- Helper: on a cache miss with the DB race succeeding, the store state is
updated by the incrementing DB query. -/
theorem readPath_miss_db (s : ReadState) (code date : String) (fallbackOk : Bool)
    (h : lookupAssoc s.cache (SHORT_URL_KEY code) = none) :
    (urlCacheGetShortUrl s code date true true fallbackOk).2.db
      = (dbFindAndIncrement s.db code).2 := by
  simp only [urlCacheGetShortUrl, h, if_true]
  cases hr : (dbFindAndIncrement s.db code).1 <;> simp [hr]

/-- Helper: on every path of the read function, no mapping's persistent
click count decreases. -/
theorem readPath_dbClicks_mono (s : ReadState) (code date c : String)
    (cacheOk dbOk fallbackOk : Bool) :
    dbClicks s.db c
      ≤ dbClicks (urlCacheGetShortUrl s code date cacheOk dbOk fallbackOk).2.db c := by
  by_cases hco : cacheOk
  · subst hco
    cases hcl : lookupAssoc s.cache (SHORT_URL_KEY code) with
    | some d => simp [urlCacheGetShortUrl, hcl, incrementClicks]
    | none =>
      by_cases hdb : dbOk
      · subst hdb
        rw [readPath_miss_db s code date fallbackOk hcl]
        exact dbFindAndIncrement_clicks_mono s.db code c
      · by_cases hfb : fallbackOk <;>
          simp [urlCacheGetShortUrl, hcl, hdb, hfb, dbFindAndIncrement_clicks_mono]
  · by_cases hfb : fallbackOk <;>
      simp [urlCacheGetShortUrl, hco, hfb, dbFindAndIncrement_clicks_mono]

/-- C5 counterexample: the claim says every successful lookup increments
the mapping's click count.  A lookup served from the cache returns the
mapping successfully, yet leaves the click count of both the cached copy
and the persistent copy at 0: only the separate analytics counters are
bumped. -/
theorem C5_counterexample_cache_hit_clicks_unchanged :
    (urlCacheGetShortUrl hitState "abcd1234" "2026-10-11" true true true).1 = some sampleData ∧
    (urlCacheGetShortUrl hitState "abcd1234" "2026-10-11" true true true).2.db = [sampleData] ∧
    lookupAssoc (urlCacheGetShortUrl hitState "abcd1234" "2026-10-11" true true true).2.cache
        (SHORT_URL_KEY "abcd1234") = some sampleData ∧
    sampleData.clicks = 0 := by
  decide

/-- C5 amended: a store-served lookup increments the mapping's persistent
click count by exactly one; a cache-served lookup leaves the mapping's
click count (cached and persistent) unchanged and instead increments the
analytics record's total; and no path of the read function ever decreases
any mapping's persistent click count. -/
theorem C5_amended_click_accounting (s : ReadState) (code date : String)
    (dbOk fallbackOk : Bool) :
    (∀ d, lookupAssoc s.cache (SHORT_URL_KEY code) = some d →
      (urlCacheGetShortUrl s code date true dbOk fallbackOk).1 = some d ∧
      (urlCacheGetShortUrl s code date true dbOk fallbackOk).2.cache = s.cache ∧
      (urlCacheGetShortUrl s code date true dbOk fallbackOk).2.db = s.db ∧
      lookupAssoc (urlCacheGetShortUrl s code date true dbOk fallbackOk).2.analytics code
        = some { totalClicks := ((lookupAssoc s.analytics code).getD
                    { totalClicks := 0, dailyToday := 0 }).totalClicks + 1
                 dailyToday := ((lookupAssoc s.analytics code).getD
                    { totalClicks := 0, dailyToday := 0 }).dailyToday + 1 }) ∧
    (lookupAssoc s.cache (SHORT_URL_KEY code) = none →
      (urlCacheGetShortUrl s code date true true fallbackOk).1
        = (dbFindAndIncrement s.db code).1 ∧
      (urlCacheGetShortUrl s code date true true fallbackOk).2.db
        = (dbFindAndIncrement s.db code).2) ∧
    (∀ d, (dbFindAndIncrement s.db code).1 = some d → d.clicks = dbClicks s.db code + 1) ∧
    (∀ cOk dOk fOk c, dbClicks s.db c
        ≤ dbClicks (urlCacheGetShortUrl s code date cOk dOk fOk).2.db c) := by
  refine ⟨?_, ?_, dbFindAndIncrement_found_clicks s.db code,
    fun cOk dOk fOk c => readPath_dbClicks_mono s code date c cOk dOk fOk⟩
  · intro d h
    rw [readPath_cacheHit s code date dbOk fallbackOk d h]
    refine ⟨rfl, rfl, rfl, ?_⟩
    simp [incrementClicks, lookupAssoc_set]
  · intro h
    exact ⟨readPath_miss_fst s code date fallbackOk h, readPath_miss_db s code date fallbackOk h⟩

/-- Witness for the amended C5 theorem at a concrete cache-hit state. -/
theorem C5_amended_click_accounting_witness :
    (urlCacheGetShortUrl hitState "abcd1234" "2026-10-11" true true true).1 = some sampleData ∧
    (urlCacheGetShortUrl hitState "abcd1234" "2026-10-11" true true true).2.db = hitState.db ∧
    lookupAssoc (urlCacheGetShortUrl hitState "abcd1234" "2026-10-11" true true true).2.analytics
        "abcd1234" = some { totalClicks := 1, dailyToday := 1 } := by
  have h : lookupAssoc hitState.cache (SHORT_URL_KEY "abcd1234") = some sampleData := by decide
  have hm := (C5_amended_click_accounting hitState "abcd1234" "2026-10-11" true true).1 sampleData h
  refine ⟨hm.1, hm.2.2.1, ?_⟩
  rw [hm.2.2.2]
  decide

/-- C6: when the store's insert does not resolve within the race timeout
(a non-collision failure on the first attempt), createShortUrlWithoutUser
still returns the generated code, writes the mapping into the fast cache
under the read path's key with the medium 600 s TTL, and schedules the
bounded (3 retries, 100 ms initial delay) background persistence job that
does not influence the returned value; the cached mapping is then
immediately retrievable through the read path. -/
theorem C6_degrade_returns_code_and_cached (store : Nat → SaveResult) (gen : Nat → String)
    (url : String) (s : ReadState) (date : String) (dbOk fallbackOk : Bool)
    (h0 : store 0 = .failed) (hg : ¬ gen 0 = "") :
    createShortUrlWithoutUser store gen url none
      = .degraded (gen 0)
          { key := SHORT_URL_KEY (gen 0)
            data := { full_url := url, short_url := gen 0, clicks := 0 }
            ttlSeconds := 600 }
          { code := gen 0, url := url, initialDelayMs := 100, maxRetries := 3 } ∧
    (urlCacheGetShortUrl
        (applyCacheWrite
          { key := SHORT_URL_KEY (gen 0)
            data := { full_url := url, short_url := gen 0, clicks := 0 }
            ttlSeconds := 600 } s)
        (gen 0) date true dbOk fallbackOk).1
      = some { full_url := url, short_url := gen 0, clicks := 0 } := by
  constructor
  · simp [createShortUrlWithoutUser, createAttemptLoop, hg, h0, degradeOutcome, SHORT_URL_KEY]
  · have hl : lookupAssoc
        (applyCacheWrite
          { key := SHORT_URL_KEY (gen 0)
            data := { full_url := url, short_url := gen 0, clicks := 0 }
            ttlSeconds := 600 } s).cache (SHORT_URL_KEY (gen 0))
        = some { full_url := url, short_url := gen 0, clicks := 0 } := by
      simp [applyCacheWrite, lookupAssoc_set]
    rw [readPath_cacheHit _ (gen 0) date dbOk fallbackOk _ hl]

/-- Witness for C6 with a concretely timing-out store. -/
theorem C6_degrade_returns_code_and_cached_witness :
    constFailStore 0 = .failed ∧
    ¬ constGen 0 = "" ∧
    createShortUrlWithoutUser constFailStore constGen "https://example.com" none
      = .degraded "gencode1"
          { key := SHORT_URL_KEY "gencode1"
            data := { full_url := "https://example.com", short_url := "gencode1", clicks := 0 }
            ttlSeconds := 600 }
          { code := "gencode1", url := "https://example.com",
            initialDelayMs := 100, maxRetries := 3 } ∧
    (urlCacheGetShortUrl
        (applyCacheWrite
          { key := SHORT_URL_KEY "gencode1"
            data := { full_url := "https://example.com", short_url := "gencode1", clicks := 0 }
            ttlSeconds := 600 } emptyReadState)
        "gencode1" "2026-10-11" true false false).1
      = some { full_url := "https://example.com", short_url := "gencode1", clicks := 0 } := by
  have h := C6_degrade_returns_code_and_cached constFailStore constGen "https://example.com"
    emptyReadState "2026-10-11" false false rfl (by decide)
  exact ⟨rfl, by decide, h.1, h.2⟩

/-- C7: for a bucket state read from the cache, checkRateLimit refills the
tokens by elapsed time times the sustained rate capped at
sustainedRps + burstCapacity; the request is allowed iff the refilled
count is at least 1, in which case exactly one token is consumed; the
consumed count is persisted with the current timestamp; and the persisted
token value lies between 0 and the capacity. -/
theorem C7_token_bucket_refill_consume_bounds (b : TokenBucket) (now : Int)
    (sustainedRps burstCapacity : ℚ)
    (hr : 0 ≤ sustainedRps) (hb : 0 ≤ burstCapacity) (ht : 0 ≤ b.tokens) :
    ((checkRateLimit (.ok (some b)) now sustainedRps burstCapacity).1.allowed = true
        ↔ 1 ≤ refillAmount b now sustainedRps burstCapacity) ∧
    (checkRateLimit (.ok (some b)) now sustainedRps burstCapacity).1.tokens
        = (if 1 ≤ refillAmount b now sustainedRps burstCapacity
           then refillAmount b now sustainedRps burstCapacity - 1
           else refillAmount b now sustainedRps burstCapacity) ∧
    (checkRateLimit (.ok (some b)) now sustainedRps burstCapacity).2
        = some { tokens := (checkRateLimit (.ok (some b)) now sustainedRps burstCapacity).1.tokens
                 ts := now } ∧
    0 ≤ (checkRateLimit (.ok (some b)) now sustainedRps burstCapacity).1.tokens ∧
    (checkRateLimit (.ok (some b)) now sustainedRps burstCapacity).1.tokens
        ≤ sustainedRps + burstCapacity := by
  have h0 : 0 ≤ refillAmount b now sustainedRps burstCapacity := by
    simp only [refillAmount]
    exact le_min (add_nonneg hr hb)
      (add_nonneg ht (mul_nonneg (le_max_left 0 _) hr))
  have hcap : refillAmount b now sustainedRps burstCapacity ≤ sustainedRps + burstCapacity := by
    simp only [refillAmount]
    exact min_le_left _ _
  by_cases h1 : 1 ≤ refillAmount b now sustainedRps burstCapacity
  · refine ⟨?_, ?_, ?_, ?_, ?_⟩ <;>
      · simp [checkRateLimit, ge_iff_le, h1]
        try linarith
  · refine ⟨?_, ?_, ?_, ?_, ?_⟩ <;>
      · simp [checkRateLimit, ge_iff_le, h1]
        try linarith

/-- Witness for C7 at a full bucket with the configured rates. -/
theorem C7_token_bucket_refill_consume_bounds_witness :
    (0 : ℚ) ≤ 150 ∧ (0 : ℚ) ≤ 300 ∧
    (0 : ℚ) ≤ ({ tokens := 450, ts := 0 } : TokenBucket).tokens ∧
    0 ≤ (checkRateLimit (.ok (some ({ tokens := 450, ts := 0 } : TokenBucket))) 0 150 300).1.tokens ∧
    (checkRateLimit (.ok (some ({ tokens := 450, ts := 0 } : TokenBucket))) 0 150 300).1.tokens
      ≤ 150 + 300 :=
  ⟨by norm_num, by norm_num, by norm_num,
   (C7_token_bucket_refill_consume_bounds { tokens := 450, ts := 0 } 0 150 300
     (by norm_num) (by norm_num) (by norm_num)).2.2.2⟩

/-- C8: when the breaker-wrapped cache path fails and the persistent-store
fallback also fails, and likewise when a cache miss is followed by a
failed DB race and a failed fallback, the read path returns null; the
embedding's return type (an option, with every branch of the source
function returning) reflects that no dependency error escapes to the
caller. -/
theorem C8_read_path_null_on_double_failure (s : ReadState) (code date : String)
    (dbOk : Bool) :
    (urlCacheGetShortUrl s code date false dbOk false).1 = none ∧
    (lookupAssoc s.cache (SHORT_URL_KEY code) = none →
      (urlCacheGetShortUrl s code date true false false).1 = none) := by
  constructor
  · simp [urlCacheGetShortUrl]
  · intro h
    simp [urlCacheGetShortUrl, h]

/-- Witness for C8 at the empty state. -/
theorem C8_read_path_null_on_double_failure_witness :
    (urlCacheGetShortUrl emptyReadState "abcd1234" "2026-10-11" false true false).1 = none ∧
    (urlCacheGetShortUrl emptyReadState "abcd1234" "2026-10-11" true false false).1 = none := by
  have h : lookupAssoc emptyReadState.cache (SHORT_URL_KEY "abcd1234") = none := rfl
  exact ⟨(C8_read_path_null_on_double_failure emptyReadState "abcd1234" "2026-10-11" true).1,
         (C8_read_path_null_on_double_failure emptyReadState "abcd1234" "2026-10-11" false).2 h⟩

/-- C9: at the concurrency limit, a full queue rejects the arrival with the
503 overload verdict carrying the current queue depth; a non-full queue
enqueues health/metrics requests at the front and all others at the back;
and a completion event dequeues from the front of the queue. -/
theorem C9_queue_priority_and_overload (s : QueueState) (path : String) :
    (s.processingRequests ≥ MAX_CONCURRENT_REQUESTS →
     s.requestQueue.length ≥ MAX_QUEUE_SIZE →
      queueMiddleware s path
        = ({ s with queueRejections := s.queueRejections + 1 },
           .overloaded s.requestQueue.length)) ∧
    (s.processingRequests ≥ MAX_CONCURRENT_REQUESTS →
     s.requestQueue.length < MAX_QUEUE_SIZE →
      (isHealthCheck path = true →
        (queueMiddleware s path).1.requestQueue = path :: s.requestQueue) ∧
      (isHealthCheck path = false →
        (queueMiddleware s path).1.requestQueue = s.requestQueue ++ [path]) ∧
      (queueMiddleware s path).2 = .enqueued) ∧
    (∀ q rest, s.requestQueue = q :: rest →
      ¬ s.processingRequests - 1 ≥ MAX_CONCURRENT_REQUESTS →
      requestCompleted s
        = ({ s with
             processingRequests := s.processingRequests - 1 + 1,
             requestQueue := rest }, some q)) := by
  refine ⟨?_, ?_, ?_⟩
  · intro h1 h2
    simp [queueMiddleware, h1, h2]
  · intro h1 h2
    have h2x : ¬ s.requestQueue.length ≥ MAX_QUEUE_SIZE := by omega
    refine ⟨?_, ?_, ?_⟩
    · intro hp
      have hpn := processNext_at_capacity { s with requestQueue := path :: s.requestQueue } h1
      simp [queueMiddleware, h1, h2x, hp, hpn]
    · intro hp
      have hpn := processNext_at_capacity { s with requestQueue := s.requestQueue ++ [path] } h1
      simp [queueMiddleware, h1, h2x, hp, hpn]
    · by_cases hp : isHealthCheck path <;>
        simp [queueMiddleware, h1, h2x, hp]
  · intro q rest hq hp
    simp [requestCompleted, processNextQueuedRequest, hq, hp]

/-- Witness for C9: overload rejection with depth, priority insert of a
health check, tail insert of an ordinary request, and front dequeue on
completion, all at concrete states. -/
theorem C9_queue_priority_and_overload_witness :
    queueMiddleware queueFull "/a"
      = ({ queueFull with queueRejections := queueFull.queueRejections + 1 },
         .overloaded queueFull.requestQueue.length) ∧
    (queueMiddleware queueBusyOne "/health").1.requestQueue
      = "/health" :: queueBusyOne.requestQueue ∧
    (queueMiddleware queueBusyOne "/b").1.requestQueue
      = queueBusyOne.requestQueue ++ ["/b"] ∧
    requestCompleted queueBusyTwo
      = ({ queueBusyTwo with
           processingRequests := queueBusyTwo.processingRequests - 1 + 1,
           requestQueue := ["/b"] }, some "/a") := by
  have hfull1 : queueFull.processingRequests ≥ MAX_CONCURRENT_REQUESTS := by decide
  have hfull2 : queueFull.requestQueue.length ≥ MAX_QUEUE_SIZE := by
    show (List.replicate 5000 "/x").length ≥ MAX_QUEUE_SIZE
    rw [List.length_replicate]
    norm_num [MAX_QUEUE_SIZE]
  have hb1 : queueBusyOne.processingRequests ≥ MAX_CONCURRENT_REQUESTS := by decide
  have hb2 : queueBusyOne.requestQueue.length < MAX_QUEUE_SIZE := by decide
  exact ⟨(C9_queue_priority_and_overload queueFull "/a").1 hfull1 hfull2,
         ((C9_queue_priority_and_overload queueBusyOne "/health").2.1 hb1 hb2).1 (by decide),
         ((C9_queue_priority_and_overload queueBusyOne "/b").2.1 hb1 hb2).2.1 (by decide),
         (C9_queue_priority_and_overload queueBusyTwo "/b").2.2 "/a" ["/b"] rfl (by decide)⟩
